import Mathlib

/-
Verification of the callback core of bevy_eventlistener
(crates/bevy_eventlistener_core/src/callbacks.rs).

The Rust code is shallowly embedded as follows.

The opaque BoxedSystem behind the Arc Mutex is modelled by an identifier
(SystemId): cloning a CallbackSystem clones the Arc, so clones carry the
same identifier and denote the same shared system instance. The Bevy
World is modelled as the trace of completed operations performed on it,
oldest first; the three operations the code invokes on the system against
the world (initialize, run, apply_deferred) are recorded as Effect values
tagged with the identifier of the system they were invoked on.

CallbackSystem.run mirrors the Rust body statement by statement,
including the in-place swap that moves the callback out of the cell
before initializing it. CallbackSystem.runFallible is the same function
with a flag modelling an initialize step that fails by unwinding: on
failure it returns the state the caller observes at the unwind point.
-/

namespace BevyEventlistenerCore

/-- A Bevy Entity identifier, modelled as a natural number. -/
abbrev Entity := Nat

/-- Identifier of one shared BoxedSystem heap cell. Cloning a
CallbackSystem clones the Arc around the system, so clones carry the same
identifier: equal identifiers mean the same callback instance. -/
abbrev SystemId := Nat

/-- One completed operation performed on the world by CallbackSystem.run,
tagged with the identifier of the system it was invoked on. -/
inductive Effect where
  | init (system : SystemId)
  | run (system : SystemId)
  | applyDeferred (system : SystemId)
deriving DecidableEq, Repr

/-- The shared store (the Bevy World), modelled as the trace of completed
operations performed on it, oldest first. -/
abbrev World := List Effect

/-- The CallbackSystem enum from callbacks.rs: Empty holds no callback,
New holds a never-initialized callback, Initialized holds an initialized
one. The Arc Mutex BoxedSystem payload is the SystemId. -/
inductive CallbackSystem where
  | Empty
  | New (system : SystemId)
  | Initialized (system : SystemId)
deriving DecidableEq, Repr

/-- CallbackSystem::is_initialized: true iff the state is Initialized. -/
def CallbackSystem.is_initialized : CallbackSystem → Bool
  | .Initialized _ => true
  | _ => false

/-- CallbackSystem::run, mirrored statement by statement. The swap puts
Empty into self and the old value into temp; if temp held New, the system
is initialized against the world and self is set to Initialized. Then, if
self is Initialized, the system is run and apply_deferred is invoked. The
result is the final cell state paired with the extended world trace. -/
def CallbackSystem.run (self : CallbackSystem) (world : World) :
    CallbackSystem × World :=
  let sw : CallbackSystem × World :=
    if !self.is_initialized then
      let temp := self
      let self := CallbackSystem.Empty
      match temp with
      | .New system =>
          (CallbackSystem.Initialized system, world ++ [Effect.init system])
      | _ => (self, world)
    else (self, world)
  match sw with
  | (CallbackSystem.Initialized system, world) =>
      (CallbackSystem.Initialized system,
        world ++ [Effect.run system, Effect.applyDeferred system])
  | (self, world) => (self, world)

/-- CallbackSystem::run where the initialize call may fail by unwinding
(the fail flag). On failure the error carries what the caller observes at
the unwind point: by then the swap has already replaced the cell contents
with Empty, and no completed initialize operation is recorded. -/
def CallbackSystem.runFallible (self : CallbackSystem) (world : World)
    (fail : Bool) : Except (CallbackSystem × World) (CallbackSystem × World) :=
  let sw : Except (CallbackSystem × World) (CallbackSystem × World) :=
    if !self.is_initialized then
      let temp := self
      let self := CallbackSystem.Empty
      match temp with
      | .New system =>
          if fail then
            Except.error (self, world)
          else
            Except.ok (CallbackSystem.Initialized system,
              world ++ [Effect.init system])
      | _ => Except.ok (self, world)
    else Except.ok (self, world)
  match sw with
  | Except.error e => Except.error e
  | Except.ok (CallbackSystem.Initialized system, world) =>
      Except.ok (CallbackSystem.Initialized system,
        world ++ [Effect.run system, Effect.applyDeferred system])
  | Except.ok (self, world) => Except.ok (self, world)

/-- n successive CallbackSystem::run calls on the same cell, threading the
cell state and the world through. -/
def CallbackSystem.runN (self : CallbackSystem) (world : World) :
    Nat → CallbackSystem × World
  | 0 => (self, world)
  | n + 1 =>
      let sw := self.run world
      CallbackSystem.runN sw.1 sw.2 n

/-- How many times the system with the given identifier has been
initialized, read off the world trace. -/
def initCountOf (i : SystemId) : World → Nat
  | [] => 0
  | Effect.init j :: w => (if j = i then 1 else 0) + initCountOf i w
  | _ :: w => initCountOf i w

/-- The ListenerInput struct from callbacks.rs: the entity that was
listening for the event, the event-specific payload, and the propagate
flag read by the bubbling driver. -/
structure ListenerInput (E : Type) where
  listener : Entity
  event_data : E
  propagate : Bool

/-- ListenerInput::stop_propagation: sets propagate to false. -/
def ListenerInput.stop_propagation {E : Type} (self : ListenerInput E) :
    ListenerInput E :=
  { self with propagate := false }

/-- The Deref impl for ListenerInput: reading through the envelope yields
the stored event_data payload. -/
def ListenerInput.deref {E : Type} (self : ListenerInput E) : E :=
  self.event_data

/-- The DerefMut impl for ListenerInput, functionally: a write through the
envelope updates the one stored event_data payload in place and touches
nothing else. -/
def ListenerInput.modifyData {E : Type} (self : ListenerInput E)
    (f : E → E) : ListenerInput E :=
  { self with event_data := f self.event_data }

/-- Modelled from the spec: envelope construction lives in the bubbling
driver, which is not under src/. Per the spec the driver constructs each
fresh envelope with the current listener identity, the event payload, and
the propagate flag set to true. -/
def ListenerInput.fresh {E : Type} (listener : Entity) (event_data : E) :
    ListenerInput E :=
  { listener := listener, event_data := event_data, propagate := true }

/-- The mutations a callback can perform on the envelope during its
execution window: stop_propagation, or a write to the payload through the
DerefMut delegation. -/
inductive EnvOp (E : Type) where
  | stop
  | modify (f : E → E)

/-- Apply one envelope operation. -/
def applyOp {E : Type} (env : ListenerInput E) : EnvOp E → ListenerInput E
  | .stop => env.stop_propagation
  | .modify f => env.modifyData f

/-- Apply a sequence of envelope operations, left to right. -/
def applyOps {E : Type} (env : ListenerInput E) :
    List (EnvOp E) → ListenerInput E
  | [] => env
  | op :: ops => applyOps (applyOp env op) ops

/-- n successive stop_propagation calls. -/
def ListenerInput.stopN {E : Type} (env : ListenerInput E) :
    Nat → ListenerInput E
  | 0 => env
  | n + 1 => (env.stopN n).stop_propagation

/-! Helper lemmas about CallbackSystem.run, shared by the claim
theorems below. -/

theorem run_Empty (w : World) :
    CallbackSystem.Empty.run w = (CallbackSystem.Empty, w) := rfl

theorem run_New (s : SystemId) (w : World) :
    (CallbackSystem.New s).run w =
      (CallbackSystem.Initialized s,
        (w ++ [Effect.init s]) ++ [Effect.run s, Effect.applyDeferred s]) := rfl

theorem run_Initialized (s : SystemId) (w : World) :
    (CallbackSystem.Initialized s).run w =
      (CallbackSystem.Initialized s,
        w ++ [Effect.run s, Effect.applyDeferred s]) := rfl

theorem runN_succ (c : CallbackSystem) (w : World) (n : Nat) :
    c.runN w (n + 1) = (c.run w).1.runN (c.run w).2 n := rfl

theorem runN_Empty (w : World) (n : Nat) :
    CallbackSystem.Empty.runN w n = (CallbackSystem.Empty, w) := by
  induction n with
  | zero => rfl
  | succ n ih => rw [runN_succ, run_Empty]; exact ih

theorem runN_Initialized_fst (s : SystemId) (w : World) (n : Nat) :
    ((CallbackSystem.Initialized s).runN w n).1 = CallbackSystem.Initialized s := by
  induction n generalizing w with
  | zero => rfl
  | succ n ih => rw [runN_succ, run_Initialized]; exact ih _

theorem initCountOf_append (i : SystemId) (v w : World) :
    initCountOf i (v ++ w) = initCountOf i v + initCountOf i w := by
  induction v with
  | nil => simp [initCountOf]
  | cons e v ih =>
      cases e with
      | init j => simp [initCountOf, ih]; omega
      | run j => simp [initCountOf, ih]
      | applyDeferred j => simp [initCountOf, ih]

theorem runN_Initialized_initCount (i s : SystemId) (w : World) (n : Nat) :
    initCountOf i (((CallbackSystem.Initialized s).runN w n).2) =
      initCountOf i w := by
  induction n generalizing w with
  | zero => rfl
  | succ n ih =>
      rw [runN_succ, run_Initialized, ih]
      simp [initCountOf_append, initCountOf]

/-! Helper lemmas about the envelope operations. -/

theorem applyOps_listener {E : Type} (env : ListenerInput E)
    (ops : List (EnvOp E)) : (applyOps env ops).listener = env.listener := by
  induction ops generalizing env with
  | nil => rfl
  | cons op ops ih => cases op <;> exact ih _

theorem applyOps_propagate_false {E : Type} (env : ListenerInput E)
    (ops : List (EnvOp E)) (h : env.propagate = false) :
    (applyOps env ops).propagate = false := by
  induction ops generalizing env with
  | nil => exact h
  | cons op ops ih =>
      cases op with
      | stop => exact ih _ rfl
      | modify f => exact ih _ h

theorem stopN_succ_eq {E : Type} (env : ListenerInput E) (n : Nat) :
    env.stopN (n + 1) = env.stop_propagation := by
  induction n with
  | zero => rfl
  | succ n ih =>
      show (env.stopN (n + 1)).stop_propagation = _
      rw [ih]
      simp [ListenerInput.stop_propagation]

/-! Claim theorems. -/

/-- C1: a run call on a cell in state New performs the one-time
initialization of the callback against the store, transitions the cell to
Initialized with the same callback, and then performs the run step and
the apply-deferred step, in that order, within the same call. -/
theorem uninitialized_execute_initializes_then_runs (s : SystemId) (w : World) :
    (CallbackSystem.New s).run w =
      (CallbackSystem.Initialized s,
        w ++ [Effect.init s, Effect.run s, Effect.applyDeferred s]) := by
  rw [run_New]
  simp

/-- C2: on every run call on a cell that holds a callback, whether it was
already Initialized or just transitioned from New in this call, the run
step occurs and then the apply-deferred step occurs, both unconditionally,
and the apply-deferred step of this invocation is recorded on the store
before the call returns. -/
theorem execute_runs_then_applies_deferred (s : SystemId) (w : World) :
    (∃ p, ((CallbackSystem.New s).run w).2
        = p ++ [Effect.run s, Effect.applyDeferred s]) ∧
    (∃ p, ((CallbackSystem.Initialized s).run w).2
        = p ++ [Effect.run s, Effect.applyDeferred s]) :=
  ⟨⟨w ++ [Effect.init s], rfl⟩, ⟨w, rfl⟩⟩

/-- C3 counterexample: cloning a CallbackSystem copies the enum tag but
shares the Arc around the BoxedSystem, so two clones of a New cell carry
the same SystemId and each still reads as uninitialized. Here two
co-owning clones of the cell New 0 each call run once against the same
store, and the shared callback instance 0 is initialized twice, refuting
at-most-once initialization per distinct callback instance across
co-owners. -/
theorem cloned_new_cell_initializes_twice :
    initCountOf 0
      (((CallbackSystem.New 0).run
        ((CallbackSystem.New 0).run []).2).2) = 2 := by decide

/-- C3 amended: for a single handle of a cell, initialization occurs at
most once over any number of run calls; the at-most-once guarantee does
not extend across cloned co-owners, because each clone carries its own
lifecycle tag and a clone of a New cell re-initializes the shared
callback instance on its own first run. -/
theorem single_handle_initializes_at_most_once
    (c : CallbackSystem) (w : World) (n : Nat) (i : SystemId) :
    initCountOf i ((c.runN w n).2) ≤ initCountOf i w + 1 := by
  cases n with
  | zero => exact Nat.le_succ _
  | succ n =>
      cases c with
      | Empty =>
          rw [runN_succ, run_Empty]
          rw [runN_Empty]
          exact Nat.le_succ _
      | New s =>
          rw [runN_succ, run_New]
          rw [runN_Initialized_initCount, initCountOf_append, initCountOf_append]
          have h1 : initCountOf i [Effect.init s] ≤ 1 := by
            simp [initCountOf]
            split <;> simp
          have h2 : initCountOf i [Effect.run s, Effect.applyDeferred s] = 0 := by
            simp [initCountOf]
          omega
      | Initialized s =>
          rw [runN_succ, run_Initialized]
          rw [runN_Initialized_initCount, initCountOf_append]
          have h2 : initCountOf i [Effect.run s, Effect.applyDeferred s] = 0 := by
            simp [initCountOf]
          omega

/-- C4 counterexample: when the initialization step fails inside run, the
cell does not remain in state New. The in-place swap has already replaced
its contents, so the caller observes the cell in state Empty, and the
subsequent run call is a no-op with no initialization recorded, not a
retry. -/
theorem failed_initialization_leaves_cell_empty :
    CallbackSystem.runFallible (CallbackSystem.New 0) [] true
        = Except.error (CallbackSystem.Empty, []) ∧
    CallbackSystem.Empty ≠ CallbackSystem.New 0 ∧
    CallbackSystem.Empty.run [] = (CallbackSystem.Empty, []) ∧
    initCountOf 0 (CallbackSystem.Empty.run []).2 = 0 :=
  ⟨rfl, by decide, rfl, rfl⟩

/-- C4 amended: if initialization fails inside run, the transition to
Initialized is indeed not committed, but the cell does not remain in
state New: the swap performed before the initialization call has already
left it Empty, the callback is dropped, and every subsequent run call is
a no-op rather than a retry of initialization. -/
theorem failed_initialization_poisons_cell_to_empty
    (s : SystemId) (w : World) (n : Nat) :
    CallbackSystem.runFallible (CallbackSystem.New s) w true
        = Except.error (CallbackSystem.Empty, w) ∧
    CallbackSystem.Empty.runN w n = (CallbackSystem.Empty, w) :=
  ⟨rfl, runN_Empty w n⟩

/-- C5: once a cell is in state Initialized, any number of further run
calls leave it in exactly that state, so it never reverts to the
uninitialized state New. -/
theorem ready_cell_never_reverts (s : SystemId) (w : World) (n : Nat) :
    ((CallbackSystem.Initialized s).runN w n).1 = CallbackSystem.Initialized s :=
  runN_Initialized_fst s w n

/-- C6 counterexample: for a cell in state Empty, is_initialized is still
false after the first run call, refuting the claim that every cell reads
as ready after its first execute. -/
theorem empty_cell_not_ready_after_execute :
    ¬ (((CallbackSystem.Empty.run []).1).is_initialized = true) := by decide

/-- C6 amended: for a cell that starts with a callback (state New),
is_initialized is false before the first run call, true after it, and
stays true after any number of further calls; for a cell in state Empty,
is_initialized is false and remains false after every run call. -/
theorem is_initialized_monotone_from_new (s : SystemId) (w : World) (n m : Nat) :
    (CallbackSystem.New s).is_initialized = false ∧
    (((CallbackSystem.New s).runN w (n + 1)).1).is_initialized = true ∧
    CallbackSystem.Empty.is_initialized = false ∧
    ((CallbackSystem.Empty.runN w m).1).is_initialized = false := by
  refine ⟨rfl, ?_, rfl, ?_⟩
  · rw [runN_succ, run_New, runN_Initialized_fst]
    rfl
  · rw [runN_Empty]
    rfl

/-- C7: for a cell in state Empty, run is a no-op: the state stays Empty,
the store trace is unchanged, and even in the fallible model the call
returns normally, with no failure. -/
theorem empty_execute_is_noop (w : World) (b : Bool) :
    CallbackSystem.Empty.run w = (CallbackSystem.Empty, w) ∧
    CallbackSystem.Empty.runFallible w b
        = Except.ok (CallbackSystem.Empty, w) :=
  ⟨rfl, rfl⟩

/-- C8: a fresh envelope has propagate true; stop_propagation sets it
false; any positive number of stop_propagation calls yields the same
envelope as one call; and once stop_propagation has run, propagate stays
false under any further sequence of envelope operations. -/
theorem stop_propagation_contract {E : Type} (l : Entity) (e : E)
    (env : ListenerInput E) (ops : List (EnvOp E)) (n : Nat) :
    (ListenerInput.fresh l e).propagate = true ∧
    env.stop_propagation.propagate = false ∧
    env.stopN (n + 1) = env.stop_propagation ∧
    (applyOps env.stop_propagation ops).propagate = false :=
  ⟨rfl, rfl, stopN_succ_eq env n,
    applyOps_propagate_false env.stop_propagation ops rfl⟩

/-- C9: listener returns exactly the identity supplied at envelope
construction, and its value is unchanged by any sequence of payload
mutations through the envelope and stop_propagation calls. -/
theorem listener_identity_preserved {E : Type} (l : Entity) (e : E)
    (ops : List (EnvOp E)) :
    (applyOps (ListenerInput.fresh l e) ops).listener = l :=
  applyOps_listener (ListenerInput.fresh l e) ops

/-- C10: access to the payload is transparent delegation to the one
stored instance: reading through the envelope yields the stored payload,
and a write through the envelope is visible on subsequent reads through
the envelope, including after a later stop_propagation call, with no
copy-back step. -/
theorem data_delegation_is_transparent {E : Type} (l : Entity) (e : E)
    (env : ListenerInput E) (f : E → E) :
    (ListenerInput.fresh l e).deref = e ∧
    env.deref = env.event_data ∧
    (env.modifyData f).deref = f env.deref ∧
    ((env.modifyData f).stop_propagation).deref = f env.deref :=
  ⟨rfl, rfl, rfl, rfl⟩

end BevyEventlistenerCore
